import Mathlib

/-!
Verification of the financial-advisor agent core pipeline
(`agents/advisor_agent.py`): intent classification, ticker extraction,
response templating, citation generation, and the session store.

Python strings are modelled as `List Char` (ASCII fragment: the keyword
tests, the regex character class `[A-Z]` and `str.lower` all act on ASCII
characters here). Environment reads (`datetime.utcnow`, `uuid.uuid4`) are
modelled as explicit inputs in an `Env` record; the mutable `self.sessions`
dict is threaded as explicit state.
-/

namespace FinancialAdvisor

/-- Python `str` modelled as a list of characters. -/
abbrev PyStr := List Char

/-- Python `str.lower()` (ASCII case folding, as `Char.toLower`). -/
def lowerStr (s : PyStr) : PyStr := s.map Char.toLower

/-- Python `str.upper()` (ASCII case folding, as `Char.toUpper`). -/
def upperStr (s : PyStr) : PyStr := s.map Char.toUpper

/-- Boolean prefix test used to implement the Python substring operator. -/
def isPrefixB : PyStr → PyStr → Bool
  | [], _ => true
  | _ :: _, [] => false
  | a :: as, b :: bs => a == b && isPrefixB as bs

/-- Python `needle in haystack` substring containment test. -/
def containsSub (needle : PyStr) : PyStr → Bool
  | [] => isPrefixB needle []
  | c :: rest => isPrefixB needle (c :: rest) || containsSub needle rest

/-- `_detect_analysis_type` from `advisor_agent.py`: lower-case the message,
then test keyword containment in strict precedence order. -/
def detect_analysis_type (message : PyStr) : PyStr :=
  let message_lower := lowerStr message
  if ["bull".toList, "bear".toList, "case".toList].any
      (fun word => containsSub word message_lower) then
    "bull_bear".toList
  else if ["earnings".toList, "report".toList].any
      (fun word => containsSub word message_lower) then
    "earnings".toList
  else if ["compare".toList, "comparison".toList, "versus".toList, "vs".toList].any
      (fun word => containsSub word message_lower) then
    "comparison".toList
  else if ["risk".toList, "volatility".toList, "downside".toList].any
      (fun word => containsSub word message_lower) then
    "risk".toList
  else
    "general".toList

/-- A regex word character (`\w`, ASCII fragment): letter, digit or
underscore. A `\b` boundary in `re.findall(r"\b[A-Z]{1,5}\b", msg)` sits
exactly between a word character and a non-word character (or text edge). -/
def isWordChar (c : Char) : Bool := c.isAlpha || c.isDigit || c == '_'

/-- Left-to-right scanner collecting the maximal runs of word characters:
`cur` holds the (reversed) run in progress. Structural recursion, so it
evaluates inside `decide`. -/
def wordRunsAux (cur : PyStr) : PyStr → List PyStr
  | [] => if cur.isEmpty then [] else [cur.reverse]
  | c :: rest =>
    if isWordChar c then
      wordRunsAux (c :: cur) rest
    else if cur.isEmpty then
      wordRunsAux [] rest
    else
      cur.reverse :: wordRunsAux [] rest

/-- The maximal runs of word characters of the text, in left-to-right
order; every run is nonempty by construction. -/
def wordRuns (s : PyStr) : List PyStr := wordRunsAux [] s

/-- Declarative description of the maximal word-character runs: a run is
the longest word-character prefix starting at the first word character
(`takeWhile`), and scanning resumes after it (`dropWhile`). Proved equal
to the scanner `wordRuns` below. -/
def maximalRuns : PyStr → List PyStr
  | [] => []
  | c :: rest =>
    if isWordChar c then
      (c :: rest.takeWhile isWordChar) :: maximalRuns (rest.dropWhile isWordChar)
    else
      maximalRuns rest
termination_by s => s.length
decreasing_by
  · simp only [List.length_cons]
    exact Nat.lt_succ_of_le (List.dropWhile_sublist isWordChar).length_le
  · simp

/-- `re.findall(r"\b[A-Z]{1,5}\b", message)`: a match of this pattern is
exactly a maximal word-character run consisting solely of upper-case ASCII
letters (`Char.isUpper`) and of length 1 to 5 — a run touching a further
word character on either side fails the `\b` boundary, and a longer or
mixed-case run cannot satisfy `[A-Z]{1,5}` between two boundaries. -/
def findallTicker (message : PyStr) : List PyStr :=
  (wordRuns message).filter
    (fun r => r.all Char.isUpper && decide (1 ≤ r.length) && decide (r.length ≤ 5))

/-- The exclusion set of `_extract_ticker`. -/
def excluded : List PyStr :=
  ["I", "A", "MY", "THE", "FOR", "AND", "OR"].map String.toList

/-- `_extract_ticker` from `advisor_agent.py`: find all ticker-pattern
matches, drop excluded common words, return the first survivor. -/
def extract_ticker (message : PyStr) : Option PyStr :=
  let found := findallTicker message
  let tickers := found.filter (fun m => !(excluded.contains m))
  tickers.head?

/-- Spec-side restatement of ticker extraction, following the spec's
words: the first, in left-to-right order, maximal word-boundary run of
1–5 upper-case ASCII letters that is not in the exclusion set. -/
def extract_ticker_spec (message : PyStr) : Option PyStr :=
  (maximalRuns message).find? (fun r =>
    r.all Char.isUpper && decide (1 ≤ r.length) && decide (r.length ≤ 5)
      && !(excluded.contains r))

/-- `Holding` from `app/schemas/portfolio.py`. `Decimal` fields are
modelled as rationals and `date` as an abstract `Nat`; the agent core
never reads them. -/
structure Holding where
  ticker : PyStr
  shares : ℚ
  cost_basis : ℚ
  purchase_date : Option Nat := none
deriving DecidableEq

/-- `Portfolio` from `app/schemas/portfolio.py`. -/
structure Portfolio where
  user_id : PyStr
  holdings : List Holding := []
  total_value : Option ℚ := none
  last_updated : Option Nat := none
deriving DecidableEq

/-- One entry of a session history list: the dict
`{"role": ..., "content": ..., "timestamp": ...}` appended by
`process_message`. Timestamps are abstract `Nat` readings of
`datetime.utcnow()`. -/
structure Turn where
  role : PyStr
  content : PyStr
  timestamp : Nat
deriving DecidableEq

/-- `ChatResponse` from `app/schemas/chat.py` (fields the agent
constructs; `disclaimer` carries the schema default). -/
structure ChatResponse where
  message : PyStr
  session_id : PyStr
  timestamp : Nat
  analysis_type : Option PyStr
  confidence : Option PyStr
  citations : List PyStr
  disclaimer : PyStr
deriving DecidableEq

/-- Python `x or y` for `x : Optional[str]`: `y` when `x` is falsy
(`None` or the empty string). -/
def pyOr (x : Option PyStr) (y : PyStr) : PyStr :=
  match x with
  | some s => if s.isEmpty then y else s
  | none => y

/-- `_mock_bull_case` from `advisor_agent.py`. -/
def mock_bull_case (ticker : Option PyStr) : PyStr :=
  let ticker_display := pyOr ticker "this stock".toList
  "**Bull Case for ".toList ++ upperStr ticker_display ++
    "**\n\n**Strengths:**\n- Strong revenue growth trajectory (mock: +15% YoY)\n- Expanding profit margins (mock: 25% → 28%)\n- Market leadership in key segments\n- Robust balance sheet with low debt\n\n**Catalysts:**\n- New product launches expected in Q2\n- Expanding into high-growth markets\n- Operational efficiency improvements\n\n**Valuation:**\n- Trading at reasonable P/E relative to growth (mock: 22x vs sector 25x)\n- Free cash flow generation supports current valuation\n\nNote: This is a mock analysis. Real data integration pending.".toList

/-- `_mock_bear_case` from `advisor_agent.py`. -/
def mock_bear_case (ticker : Option PyStr) : PyStr :=
  let ticker_display := pyOr ticker "this stock".toList
  "**Bear Case for ".toList ++ upperStr ticker_display ++
    "**\n\n**Risks:**\n- Increasing competition in core markets\n- Potential margin compression (mock: concerns about input costs)\n- High valuation relative to historical averages\n- Regulatory headwinds in key jurisdictions\n\n**Concerns:**\n- Customer concentration risk (top 3 customers = 40% revenue)\n- Execution risk on new initiatives\n- Macroeconomic sensitivity\n\n**Valuation:**\n- Premium valuation leaves little room for disappointment\n- Multiple expansion may reverse in downturn\n\nNote: This is a mock analysis. Real data integration pending.".toList

/-- `_mock_balanced_view` from `advisor_agent.py`. -/
def mock_balanced_view (ticker : Option PyStr) : PyStr :=
  let ticker_display := pyOr ticker "this stock".toList
  "**Analysis for ".toList ++ upperStr ticker_display ++
    "**\n\n**Bull Factors:**\n- Revenue growth momentum\n- Strong competitive position\n- Margin expansion potential\n\n**Bear Factors:**\n- Valuation concerns\n- Market competition intensifying\n- Execution risks on growth plans\n\n**Recommendation:**\nMonitor upcoming earnings and sector trends. Consider position sizing relative to overall portfolio risk.\n\nNote: This is a mock analysis. Real data integration pending.".toList

/-- The `portfolio_context` fragment computed in the final branch of
`_generate_mock_response`: Python `if portfolio and portfolio.holdings:`
guards a clause listing the first three holdings, comma-joined. -/
def portfolio_context (portfolio : Option Portfolio) : PyStr :=
  match portfolio with
  | some pf =>
    if pf.holdings.isEmpty then [] else
      let tickers := (pf.holdings.take 3).map Holding.ticker
      " I can see you hold ".toList ++ List.intercalate ", ".toList tickers ++ ".".toList
  | none => []

/-- `_generate_mock_response` from `advisor_agent.py`. -/
def generate_mock_response (message : PyStr) (analysis_type : PyStr)
    (portfolio : Option Portfolio) : PyStr :=
  let ticker := extract_ticker message
  if analysis_type = "bull_bear".toList then
    if containsSub "bull".toList (lowerStr message) then
      mock_bull_case ticker
    else if containsSub "bear".toList (lowerStr message) then
      mock_bear_case ticker
    else
      mock_balanced_view ticker
  else if analysis_type = "earnings".toList then
    "Here\x27s an earnings analysis for ".toList ++ pyOr ticker "your holdings".toList ++
      ":\n\nMock earnings data will be displayed here with YoY comparisons and surprises.".toList
  else if analysis_type = "risk".toList then
    "Risk analysis for ".toList ++ pyOr ticker "your portfolio".toList ++
      ":\n\nMock risk metrics including volatility, concentration, and diversification scores.".toList
  else
    "I\x27m here to help with your investment research.".toList ++ portfolio_context portfolio ++
      " You can ask me about bull/bear cases, earnings analysis, stock comparisons, or risk assessments.".toList

/-- `_generate_mock_citations` from `advisor_agent.py`. -/
def generate_mock_citations (analysis_type : PyStr)
    (_portfolio : Option Portfolio) : List PyStr :=
  if analysis_type = "bull_bear".toList then
    ["P/E Ratio: 22.5 (mock data)",
     "Revenue Growth YoY: +15% (mock data)",
     "Profit Margin: 28% (mock data)"].map String.toList
  else if analysis_type = "earnings".toList then
    ["Q3 EPS: $2.45 vs est. $2.30 (mock data)",
     "Revenue: $12.5B vs est. $12.1B (mock data)"].map String.toList
  else if analysis_type = "risk".toList then
    ["30-day volatility: 18% (mock data)",
     "Beta: 1.15 (mock data)",
     "Max drawdown (1Y): -22% (mock data)"].map String.toList
  else
    []

/-- Environment reads of one `process_message` call: the fresh id suffix
`uuid.uuid4().hex[:8]` and the three `datetime.utcnow()` readings, in
source order (user turn, assistant turn, response record). -/
structure Env where
  fresh_suffix : PyStr
  t_user : Nat
  t_assistant : Nat
  t_response : Nat

/-- The agent's mutable state: `self.sessions`, a dict from session id to
its turn list (`none` = key absent). -/
structure AgentState where
  sessions : PyStr → Option (List Turn)

/-- `process_message` from `advisor_agent.py`, as a state transformer:
resolve the session id (Python `if not session_id:` treats `None` and `""`
as absent), append the user turn, run classifier → extractor → template →
citations, append the assistant turn, return the response record. -/
def process_message (env : Env) (message : PyStr)
    (session_id : Option PyStr) (_user_id : Option PyStr)
    (portfolio : Option Portfolio) (st : AgentState) :
    ChatResponse × AgentState :=
  let sid : PyStr :=
    match session_id with
    | some s => if s.isEmpty then "session-".toList ++ env.fresh_suffix else s
    | none => "session-".toList ++ env.fresh_suffix
  let history := (st.sessions sid).getD []
  let history := history ++ [⟨"user".toList, message, env.t_user⟩]
  let analysis_type := detect_analysis_type message
  let response_message := generate_mock_response message analysis_type portfolio
  let citations := generate_mock_citations analysis_type portfolio
  let history := history ++ [⟨"assistant".toList, response_message, env.t_assistant⟩]
  let st' : AgentState := ⟨fun k => if k = sid then some history else st.sessions k⟩
  (⟨response_message, sid, env.t_response, some analysis_type,
    some "medium".toList, citations,
    "This is not financial advice. All analysis is for informational purposes only.".toList⟩,
   st')

/-- C1: the intent classifier returns exactly one of the five categories by
testing keyword containment on the lower-cased text in strict precedence
order — bull_bear ("bull","bear","case"), then earnings ("earnings",
"report"), then comparison ("compare","comparison","versus","vs"), then
risk ("risk","volatility","downside"), else general; in particular any text
whose lower-casing contains "bull", "bear" or "case" classifies as
bull_bear regardless of other keywords. -/
theorem detect_analysis_type_correct (message : PyStr) :
    (detect_analysis_type message = "bull_bear".toList ∨
     detect_analysis_type message = "earnings".toList ∨
     detect_analysis_type message = "comparison".toList ∨
     detect_analysis_type message = "risk".toList ∨
     detect_analysis_type message = "general".toList)
  ∧ (detect_analysis_type message = "bull_bear".toList ↔
      (containsSub "bull".toList (lowerStr message) = true ∨
       containsSub "bear".toList (lowerStr message) = true ∨
       containsSub "case".toList (lowerStr message) = true))
  ∧ (detect_analysis_type message = "earnings".toList ↔
      (¬(containsSub "bull".toList (lowerStr message) = true ∨
         containsSub "bear".toList (lowerStr message) = true ∨
         containsSub "case".toList (lowerStr message) = true) ∧
       (containsSub "earnings".toList (lowerStr message) = true ∨
        containsSub "report".toList (lowerStr message) = true)))
  ∧ (detect_analysis_type message = "comparison".toList ↔
      (¬(containsSub "bull".toList (lowerStr message) = true ∨
         containsSub "bear".toList (lowerStr message) = true ∨
         containsSub "case".toList (lowerStr message) = true) ∧
       ¬(containsSub "earnings".toList (lowerStr message) = true ∨
         containsSub "report".toList (lowerStr message) = true) ∧
       (containsSub "compare".toList (lowerStr message) = true ∨
        containsSub "comparison".toList (lowerStr message) = true ∨
        containsSub "versus".toList (lowerStr message) = true ∨
        containsSub "vs".toList (lowerStr message) = true)))
  ∧ (detect_analysis_type message = "risk".toList ↔
      (¬(containsSub "bull".toList (lowerStr message) = true ∨
         containsSub "bear".toList (lowerStr message) = true ∨
         containsSub "case".toList (lowerStr message) = true) ∧
       ¬(containsSub "earnings".toList (lowerStr message) = true ∨
         containsSub "report".toList (lowerStr message) = true) ∧
       ¬(containsSub "compare".toList (lowerStr message) = true ∨
         containsSub "comparison".toList (lowerStr message) = true ∨
         containsSub "versus".toList (lowerStr message) = true ∨
         containsSub "vs".toList (lowerStr message) = true) ∧
       (containsSub "risk".toList (lowerStr message) = true ∨
        containsSub "volatility".toList (lowerStr message) = true ∨
        containsSub "downside".toList (lowerStr message) = true)))
  ∧ (detect_analysis_type message = "general".toList ↔
      (¬(containsSub "bull".toList (lowerStr message) = true ∨
         containsSub "bear".toList (lowerStr message) = true ∨
         containsSub "case".toList (lowerStr message) = true) ∧
       ¬(containsSub "earnings".toList (lowerStr message) = true ∨
         containsSub "report".toList (lowerStr message) = true) ∧
       ¬(containsSub "compare".toList (lowerStr message) = true ∨
         containsSub "comparison".toList (lowerStr message) = true ∨
         containsSub "versus".toList (lowerStr message) = true ∨
         containsSub "vs".toList (lowerStr message) = true) ∧
       ¬(containsSub "risk".toList (lowerStr message) = true ∨
         containsSub "volatility".toList (lowerStr message) = true ∨
         containsSub "downside".toList (lowerStr message) = true))) := by
  unfold detect_analysis_type
  simp only [List.any_cons, List.any_nil, Bool.or_false, Bool.or_eq_true]
  split_ifs with h1 h2 h3 h4 <;> simp_all

/-- C5: for every text classified as bull_bear, the template engine
re-inspects the lower-cased original text and picks the bull-case
sub-template when "bull" occurs (even if "bear" also occurs), the
bear-case sub-template when "bear" occurs but "bull" does not, and the
balanced-view sub-template when neither occurs. -/
theorem bull_bear_template_selection (message : PyStr)
    (portfolio : Option Portfolio)
    (h : detect_analysis_type message = "bull_bear".toList) :
    (containsSub "bull".toList (lowerStr message) = true →
      generate_mock_response message (detect_analysis_type message) portfolio
        = mock_bull_case (extract_ticker message))
  ∧ (containsSub "bull".toList (lowerStr message) = false →
     containsSub "bear".toList (lowerStr message) = true →
      generate_mock_response message (detect_analysis_type message) portfolio
        = mock_bear_case (extract_ticker message))
  ∧ (containsSub "bull".toList (lowerStr message) = false →
     containsSub "bear".toList (lowerStr message) = false →
      generate_mock_response message (detect_analysis_type message) portfolio
        = mock_balanced_view (extract_ticker message)) := by
  rw [h]
  unfold generate_mock_response
  refine ⟨fun hbull => ?_, fun hnb hbear => ?_, fun hnb hnb2 => ?_⟩ <;>
    split_ifs <;> simp_all

/-- Witness for C5 at concrete inputs: "the bull and bear cases" is
classified bull_bear and, containing "bull", renders the bull-case
sub-template. -/
theorem bull_bear_template_selection_witness :
    detect_analysis_type "the bull and bear cases".toList = "bull_bear".toList
  ∧ generate_mock_response "the bull and bear cases".toList
      (detect_analysis_type "the bull and bear cases".toList) none
      = mock_bull_case (extract_ticker "the bull and bear cases".toList) :=
  ⟨by decide,
   (bull_bear_template_selection "the bull and bear cases".toList none
      (by decide)).1 (by decide)⟩

/-- C6: the citation generator is a fixed lookup on the category alone
(the portfolio argument has no effect): bull_bear yields exactly 3 fixed
strings, earnings exactly 2, risk exactly 3, comparison and general the
empty sequence; and every string returned for bull_bear, earnings and risk
contains a case-insensitive "mock" marker. -/
theorem generate_mock_citations_fixed_lookup (p : Option Portfolio) :
    generate_mock_citations "bull_bear".toList p
      = ["P/E Ratio: 22.5 (mock data)",
         "Revenue Growth YoY: +15% (mock data)",
         "Profit Margin: 28% (mock data)"].map String.toList
  ∧ generate_mock_citations "earnings".toList p
      = ["Q3 EPS: $2.45 vs est. $2.30 (mock data)",
         "Revenue: $12.5B vs est. $12.1B (mock data)"].map String.toList
  ∧ generate_mock_citations "risk".toList p
      = ["30-day volatility: 18% (mock data)",
         "Beta: 1.15 (mock data)",
         "Max drawdown (1Y): -22% (mock data)"].map String.toList
  ∧ generate_mock_citations "comparison".toList p = []
  ∧ generate_mock_citations "general".toList p = []
  ∧ (generate_mock_citations "bull_bear".toList p).length = 3
  ∧ (generate_mock_citations "earnings".toList p).length = 2
  ∧ (generate_mock_citations "risk".toList p).length = 3
  ∧ (∀ c ∈ generate_mock_citations "bull_bear".toList p
          ++ generate_mock_citations "earnings".toList p
          ++ generate_mock_citations "risk".toList p,
       containsSub "mock".toList (lowerStr c) = true) := by
  have h1 : generate_mock_citations "bull_bear".toList p
      = ["P/E Ratio: 22.5 (mock data)",
         "Revenue Growth YoY: +15% (mock data)",
         "Profit Margin: 28% (mock data)"].map String.toList := rfl
  have h2 : generate_mock_citations "earnings".toList p
      = ["Q3 EPS: $2.45 vs est. $2.30 (mock data)",
         "Revenue: $12.5B vs est. $12.1B (mock data)"].map String.toList := rfl
  have h3 : generate_mock_citations "risk".toList p
      = ["30-day volatility: 18% (mock data)",
         "Beta: 1.15 (mock data)",
         "Max drawdown (1Y): -22% (mock data)"].map String.toList := rfl
  refine ⟨h1, h2, h3, rfl, rfl, rfl, rfl, rfl, ?_⟩
  rw [h1, h2, h3]
  decide

/-- Witness for C6 at a concrete citation: the first bull_bear citation is
among the returned strings and carries the case-insensitive "mock"
marker. -/
theorem generate_mock_citations_fixed_lookup_witness :
    ("P/E Ratio: 22.5 (mock data)".toList
        ∈ generate_mock_citations "bull_bear".toList none
          ++ generate_mock_citations "earnings".toList none
          ++ generate_mock_citations "risk".toList none)
  ∧ containsSub "mock".toList
      (lowerStr "P/E Ratio: 22.5 (mock data)".toList) = true :=
  ⟨by decide,
   (generate_mock_citations_fixed_lookup none).2.2.2.2.2.2.2.2
     "P/E Ratio: 22.5 (mock data)".toList (by decide)⟩

/-- C7: for every text and optional portfolio, the comparison category
renders exactly the general-category template output — there is no
distinct comparison template — including the portfolio clause listing up
to the first three holdings when a non-empty portfolio is supplied and
omitting it otherwise. -/
theorem comparison_falls_through_to_general (message : PyStr)
    (portfolio : Option Portfolio) :
    generate_mock_response message "comparison".toList portfolio
      = generate_mock_response message "general".toList portfolio
  ∧ generate_mock_response message "comparison".toList portfolio
      = "I\x27m here to help with your investment research.".toList
        ++ portfolio_context portfolio
        ++ " You can ask me about bull/bear cases, earnings analysis, stock comparisons, or risk assessments.".toList
  ∧ (∀ pf, portfolio = some pf → pf.holdings ≠ [] →
      portfolio_context portfolio
        = " I can see you hold ".toList
          ++ List.intercalate ", ".toList ((pf.holdings.take 3).map Holding.ticker)
          ++ ".".toList)
  ∧ (portfolio = none → portfolio_context portfolio = [])
  ∧ (∀ pf, portfolio = some pf → pf.holdings = [] →
      portfolio_context portfolio = []) := by
  refine ⟨rfl, rfl, ?_, ?_, ?_⟩
  · rintro pf rfl hne
    simp [portfolio_context, hne]
  · rintro rfl
    rfl
  · rintro pf rfl he
    simp [portfolio_context, he]

/-- Witness for C7 at a concrete one-holding portfolio: the comparison
category output names the held ticker through the general template's
portfolio clause. -/
theorem comparison_falls_through_to_general_witness :
    (some (Portfolio.mk "u1".toList [Holding.mk "AAPL".toList 1 1 none] none none)
        = some (Portfolio.mk "u1".toList [Holding.mk "AAPL".toList 1 1 none] none none)
      ∧ (Portfolio.mk "u1".toList [Holding.mk "AAPL".toList 1 1 none] none none).holdings ≠ [])
  ∧ portfolio_context
        (some (Portfolio.mk "u1".toList [Holding.mk "AAPL".toList 1 1 none] none none))
      = " I can see you hold ".toList
        ++ List.intercalate ", ".toList
            (((Portfolio.mk "u1".toList [Holding.mk "AAPL".toList 1 1 none]
                none none).holdings.take 3).map Holding.ticker)
        ++ ".".toList :=
  ⟨⟨rfl, by simp⟩,
   (comparison_falls_through_to_general "compare these".toList
      (some (Portfolio.mk "u1".toList [Holding.mk "AAPL".toList 1 1 none]
        none none))).2.2.1
     (Portfolio.mk "u1".toList [Holding.mk "AAPL".toList 1 1 none] none none)
     rfl (by simp)⟩

/-- Once a nonempty run `cur` is in progress, the scanner finishes it with
the word-character prefix of the remaining text and resumes after it. -/
theorem wordRunsAux_ne_nil (s : PyStr) : ∀ cur : PyStr, cur ≠ [] →
    wordRunsAux cur s
      = (cur.reverse ++ s.takeWhile isWordChar)
          :: wordRunsAux [] (s.dropWhile isWordChar) := by
  induction s with
  | nil =>
    intro cur h
    simp [wordRunsAux, h]
  | cons c rest ih =>
    intro cur h
    by_cases hc : isWordChar c
    · rw [wordRunsAux, if_pos hc, ih (c :: cur) (by simp),
        List.takeWhile_cons_of_pos hc, List.dropWhile_cons_of_pos hc]
      simp
    · rw [wordRunsAux, if_neg hc, if_neg (by simp [h]),
        List.takeWhile_cons_of_neg hc, List.dropWhile_cons_of_neg hc]
      simp [wordRunsAux, hc]

/-- The scanner computes exactly the declarative maximal runs. -/
theorem wordRuns_eq_maximalRuns (s : PyStr) : wordRuns s = maximalRuns s := by
  induction s using maximalRuns.induct with
  | case1 => simp [wordRuns, wordRunsAux, maximalRuns]
  | case2 c rest hc ih =>
    have h1 : wordRuns (c :: rest)
        = (c :: rest.takeWhile isWordChar) :: wordRuns (rest.dropWhile isWordChar) := by
      simp only [wordRuns, wordRunsAux, hc, if_true]
      rw [wordRunsAux_ne_nil rest [c] (by simp)]
      simp [wordRuns]
    rw [h1, ih]
    simp [maximalRuns, hc]
  | case3 c rest hc ih =>
    have h1 : wordRuns (c :: rest) = wordRuns rest := by
      simp [wordRuns, wordRunsAux, hc]
    rw [h1, ih]
    simp [maximalRuns, hc]

/-- The head of a filtered list is its first element passing the test. -/
theorem head?_filter_eq_find? (p : PyStr → Bool) (l : List PyStr) :
    (l.filter p).head? = l.find? p := by
  induction l with
  | nil => rfl
  | cons a t ih =>
    by_cases h : p a <;> simp [List.filter_cons, List.find?_cons, h, ih]

/-- C2: the ticker extractor returns the first, in left-to-right order,
word-boundary-delimited maximal run of 1–5 upper-case ASCII letters that
is not in the exclusion set {"I","A","MY","THE","FOR","AND","OR"}, and
returns none exactly when no maximal run survives (no well-shaped run at
all, or every such run is an excluded word). -/
theorem extract_ticker_correct (message : PyStr) :
    extract_ticker message = extract_ticker_spec message
  ∧ (extract_ticker message = none ↔
      ∀ r ∈ maximalRuns message,
        ¬(r.all Char.isUpper = true ∧ 1 ≤ r.length ∧ r.length ≤ 5
            ∧ excluded.contains r = false))
  ∧ (∀ t, extract_ticker message = some t →
      t ∈ maximalRuns message ∧ t.all Char.isUpper = true
        ∧ 1 ≤ t.length ∧ t.length ≤ 5 ∧ excluded.contains t = false) := by
  have hmain : extract_ticker message = extract_ticker_spec message := by
    simp only [extract_ticker, extract_ticker_spec, findallTicker]
    rw [wordRuns_eq_maximalRuns, List.filter_filter, head?_filter_eq_find?]
    congr 1
    funext r
    rw [Bool.and_comm]
  refine ⟨hmain, ?_, ?_⟩
  · rw [hmain]
    unfold extract_ticker_spec
    rw [List.find?_eq_none]
    constructor
    · intro h r hr
      have := h r hr
      simp only [Bool.and_eq_true, Bool.not_eq_true', decide_eq_true_eq] at this
      tauto
    · intro h r hr
      have := h r hr
      simp only [Bool.and_eq_true, Bool.not_eq_true', decide_eq_true_eq]
      tauto
  · intro t ht
    rw [hmain] at ht
    unfold extract_ticker_spec at ht
    have hmem := List.mem_of_find?_eq_some ht
    have hp := List.find?_some ht
    simp only [Bool.and_eq_true, Bool.not_eq_true', decide_eq_true_eq] at hp
    exact ⟨hmem, hp.1.1.1, hp.1.1.2, hp.1.2, hp.2⟩

/-- Witness for C2 at concrete inputs: in "I want AAPL and MSFT" the run
"I" is excluded, so the first survivor is "AAPL"; the theorem then places
"AAPL" among the maximal runs with the required shape. -/
theorem extract_ticker_correct_witness :
    extract_ticker "I want AAPL and MSFT".toList = some "AAPL".toList
  ∧ ("AAPL".toList ∈ maximalRuns "I want AAPL and MSFT".toList
      ∧ "AAPL".toList.all Char.isUpper = true
      ∧ 1 ≤ "AAPL".toList.length ∧ "AAPL".toList.length ≤ 5
      ∧ excluded.contains "AAPL".toList = false) :=
  ⟨by decide,
   (extract_ticker_correct "I want AAPL and MSFT".toList).2.2 "AAPL".toList
     (by decide)⟩

/-- An upper-case ASCII letter is unchanged by `Char.toUpper`. -/
theorem toUpper_of_isUpper (c : Char) (h : c.isUpper = true) : c.toUpper = c := by
  simp [Char.isUpper] at h
  have h2 : c.toNat ≤ 90 := by
    have hv : c.val.toNat ≤ (90 : UInt32).toNat := h.2
    simpa [Char.toNat] using hv
  simp only [Char.toUpper]
  rw [if_neg (by omega)]

/-- A nonempty list is not `isEmpty`. -/
theorem isEmpty_false_of_ne_nil (l : PyStr) (h : l ≠ []) : l.isEmpty = false := by
  cases l with
  | nil => exact absurd rfl h
  | cons a t => rfl

/-- C9: whenever an extracted ticker is interpolated into a rendered
response, the displayed token consists only of upper-case ASCII letters:
the extractor only ever returns all-upper-case runs, upper-casing the
ticker is the identity, and every template interpolation point
(`ticker or "your holdings"`, `ticker or "your portfolio"`,
`(ticker or "this stock").upper()`) displays exactly that run. -/
theorem extracted_ticker_displayed_uppercase (message : PyStr) (t : PyStr)
    (h : extract_ticker message = some t) :
    (∀ c ∈ t, c.isUpper = true)
  ∧ upperStr t = t
  ∧ pyOr (extract_ticker message) "your holdings".toList = t
  ∧ pyOr (extract_ticker message) "your portfolio".toList = t
  ∧ upperStr (pyOr (extract_ticker message) "this stock".toList) = t := by
  have h' := h
  simp only [extract_ticker, findallTicker] at h'
  have hmem : t ∈ List.filter (fun m => !excluded.contains m)
      (List.filter
        (fun r => r.all Char.isUpper && decide (1 ≤ r.length) && decide (r.length ≤ 5))
        (wordRuns message)) :=
    List.mem_of_mem_head? (Option.mem_def.mpr h')
  have hp := (List.mem_filter.mp (List.mem_filter.mp hmem).1).2
  simp only [Bool.and_eq_true, decide_eq_true_eq, List.all_eq_true] at hp
  obtain ⟨⟨hall, h1len⟩, _⟩ := hp
  have hne : t ≠ [] := by
    intro he
    rw [he] at h1len
    exact absurd h1len (by decide)
  have hte : t.isEmpty = false := isEmpty_false_of_ne_nil t hne
  have hmap : upperStr t = t := by
    unfold upperStr
    rw [List.map_congr_left (fun c hc => toUpper_of_isUpper c (hall c hc)),
      List.map_id']
  refine ⟨hall, hmap, ?_, ?_, ?_⟩ <;> rw [h] <;> simp [pyOr, hte, hmap]

/-- Witness for C9 at a concrete input: in "buy aapl and TSLA shares" the
lower-case "aapl" is not matched and the extractor returns "TSLA", which
is displayed verbatim, all upper-case. -/
theorem extracted_ticker_displayed_uppercase_witness :
    extract_ticker "buy aapl and TSLA shares".toList = some "TSLA".toList
  ∧ ((∀ c ∈ "TSLA".toList, c.isUpper = true)
      ∧ upperStr "TSLA".toList = "TSLA".toList
      ∧ pyOr (extract_ticker "buy aapl and TSLA shares".toList)
          "your holdings".toList = "TSLA".toList
      ∧ pyOr (extract_ticker "buy aapl and TSLA shares".toList)
          "your portfolio".toList = "TSLA".toList
      ∧ upperStr (pyOr (extract_ticker "buy aapl and TSLA shares".toList)
          "this stock".toList) = "TSLA".toList) :=
  ⟨by decide,
   extracted_ticker_displayed_uppercase "buy aapl and TSLA shares".toList
     "TSLA".toList (by decide)⟩

/-- One `process_message` call rewrites exactly the resolved session's
log, appending the user turn and the assistant turn to the prior log
(empty when the key was absent); every other key is untouched. -/
theorem sessions_after_process_message (env : Env) (message : PyStr)
    (osid : Option PyStr) (uid : Option PyStr) (p : Option Portfolio)
    (st : AgentState) (k : PyStr) :
    (process_message env message osid uid p st).2.sessions k
      = if k = (process_message env message osid uid p st).1.session_id
        then some ((st.sessions k).getD []
            ++ [⟨"user".toList, message, env.t_user⟩,
                ⟨"assistant".toList,
                  (process_message env message osid uid p st).1.message,
                  env.t_assistant⟩])
        else st.sessions k := by
  simp only [process_message]
  split_ifs with hk
  · rw [hk]
    simp
  · rfl

/-- A supplied nonempty session id is resolved to itself. -/
theorem session_id_of_supplied (env : Env) (message : PyStr) (sid : PyStr)
    (uid : Option PyStr) (p : Option Portfolio) (st : AgentState)
    (h : sid ≠ []) :
    (process_message env message (some sid) uid p st).1.session_id = sid := by
  simp [process_message, isEmpty_false_of_ne_nil sid h]

/-- C3: every completed `process_message` call appends exactly two turns
to the resolved session's log — the user turn with the input message
followed by the assistant turn with the rendered response — leaving all
other sessions untouched and preserving even turn counts; two sequential
calls with the same fresh nonempty session identifier leave exactly four
turns (user, assistant, user, assistant) in that session's log, in call
order. -/
theorem process_message_session_additive (env env2 : Env)
    (message message2 : PyStr) (osid : Option PyStr) (sid : PyStr)
    (uid uid2 : Option PyStr) (p p2 : Option Portfolio) (st : AgentState)
    (hsid : sid ≠ []) (hfresh : st.sessions sid = none) :
    ((process_message env message osid uid p st).2.sessions
        (process_message env message osid uid p st).1.session_id
      = some ((st.sessions (process_message env message osid uid p st).1.session_id).getD []
          ++ [⟨"user".toList, message, env.t_user⟩,
              ⟨"assistant".toList,
                (process_message env message osid uid p st).1.message,
                env.t_assistant⟩]))
  ∧ (∀ k, k ≠ (process_message env message osid uid p st).1.session_id →
      (process_message env message osid uid p st).2.sessions k = st.sessions k)
  ∧ (Even ((st.sessions (process_message env message osid uid p st).1.session_id).getD []).length →
      Even (((process_message env message osid uid p st).2.sessions
          (process_message env message osid uid p st).1.session_id).getD []).length)
  ∧ ((process_message env2 message2 (some sid) uid2 p2
        (process_message env message (some sid) uid p st).2).2.sessions sid
      = some [⟨"user".toList, message, env.t_user⟩,
              ⟨"assistant".toList,
                (process_message env message (some sid) uid p st).1.message,
                env.t_assistant⟩,
              ⟨"user".toList, message2, env2.t_user⟩,
              ⟨"assistant".toList,
                (process_message env2 message2 (some sid) uid2 p2
                  (process_message env message (some sid) uid p st).2).1.message,
                env2.t_assistant⟩]) := by
  refine ⟨?_, ?_, ?_, ?_⟩
  · rw [sessions_after_process_message, if_pos rfl]
  · intro k hk
    rw [sessions_after_process_message, if_neg hk]
  · intro hEven
    rw [sessions_after_process_message, if_pos rfl, Option.getD_some,
      List.length_append]
    obtain ⟨m, hm⟩ := hEven
    exact ⟨m + 1, by simpa [hm] using by omega⟩
  · have hres1 := session_id_of_supplied env message sid uid p st hsid
    have hfirst : (process_message env message (some sid) uid p st).2.sessions sid
        = some [⟨"user".toList, message, env.t_user⟩,
                ⟨"assistant".toList,
                  (process_message env message (some sid) uid p st).1.message,
                  env.t_assistant⟩] := by
      rw [sessions_after_process_message, hres1, if_pos rfl, hfresh]
      rfl
    have hres2 := session_id_of_supplied env2 message2 sid uid2 p2
      (process_message env message (some sid) uid p st).2 hsid
    rw [sessions_after_process_message, hres2, if_pos rfl, hfirst]
    rfl

/-- Witness for C3 at concrete inputs: with session id "s1" fresh in the
empty store, two sequential calls leave exactly the four turns, in call
order. -/
theorem process_message_session_additive_witness :
    ("s".toList ≠ ([] : PyStr) ∧ (AgentState.mk fun _ => none).sessions "s".toList = none)
  ∧ (process_message ⟨"b".toList, 3, 4, 5⟩ "hi again".toList (some "s".toList) none none
        (process_message ⟨"a".toList, 0, 1, 2⟩ "hello".toList (some "s".toList) none none
          ⟨fun _ => none⟩).2).2.sessions "s".toList
      = some [⟨"user".toList, "hello".toList, 0⟩,
              ⟨"assistant".toList,
                (process_message ⟨"a".toList, 0, 1, 2⟩ "hello".toList (some "s".toList) none none
                  ⟨fun _ => none⟩).1.message, 1⟩,
              ⟨"user".toList, "hi again".toList, 3⟩,
              ⟨"assistant".toList,
                (process_message ⟨"b".toList, 3, 4, 5⟩ "hi again".toList (some "s".toList) none none
                  (process_message ⟨"a".toList, 0, 1, 2⟩ "hello".toList (some "s".toList) none none
                    ⟨fun _ => none⟩).2).1.message, 4⟩] :=
  ⟨⟨by decide, rfl⟩,
   (process_message_session_additive ⟨"a".toList, 0, 1, 2⟩ ⟨"b".toList, 3, 4, 5⟩
      "hello".toList "hi again".toList none "s".toList none none none none
      ⟨fun _ => none⟩ (by decide) rfl).2.2.2⟩

/-- C4: `process_message` is total over its input domain — every message,
with or without session id, user id or portfolio, yields a response
record — and on the empty string the category is general and, with no
portfolio, the response text is the generic fallback with no portfolio
clause. -/
theorem process_message_total_and_empty_fallback :
    (∀ (env : Env) (message : PyStr) (osid uid : Option PyStr)
        (p : Option Portfolio) (st : AgentState),
      ∃ (r : ChatResponse) (st' : AgentState),
        process_message env message osid uid p st = (r, st'))
  ∧ (∀ (env : Env) (osid uid : Option PyStr) (st : AgentState),
      (process_message env [] osid uid none st).1.analysis_type
          = some "general".toList
      ∧ (process_message env [] osid uid none st).1.message
          = "I\x27m here to help with your investment research. You can ask me about bull/bear cases, earnings analysis, stock comparisons, or risk assessments.".toList) :=
  ⟨fun env message osid uid p st =>
    ⟨(process_message env message osid uid p st).1,
     (process_message env message osid uid p st).2, rfl⟩,
   fun _ _ _ _ => ⟨rfl, rfl⟩⟩

/-- C8 counterexample: the generated identifier is a deterministic
function of the random suffix read from the environment; when two calls
without a session identifier read the same `uuid4` suffix (possible,
with negligible probability), the two generated identifiers are equal —
so "never equal" is false without an assumption on the draws. -/
theorem generated_session_id_collision :
    (process_message ⟨"00000000".toList, 0, 0, 0⟩ "hello".toList none none none
        ⟨fun _ => none⟩).1.session_id
      = (process_message ⟨"00000000".toList, 1, 1, 1⟩ "world".toList none none none
        ⟨fun _ => none⟩).1.session_id := by
  decide

/-- C8 (amended): whenever the two random suffix draws differ — the
almost-sure case for `uuid4` — the two generated session identifiers
(fixed prefix "session-" plus the suffix) differ. -/
theorem generated_session_ids_differ (env1 env2 : Env) (m1 m2 : PyStr)
    (u1 u2 : Option PyStr) (p1 p2 : Option Portfolio) (st1 st2 : AgentState)
    (h : env1.fresh_suffix ≠ env2.fresh_suffix) :
    (process_message env1 m1 none u1 p1 st1).1.session_id
      ≠ (process_message env2 m2 none u2 p2 st2).1.session_id := by
  simp only [process_message]
  intro hc
  exact h (List.append_cancel_left hc)

/-- Witness for the amended C8 at concrete inputs: distinct suffixes give
distinct generated identifiers. -/
theorem generated_session_ids_differ_witness :
    ("aaaaaaaa".toList ≠ "bbbbbbbb".toList)
  ∧ (process_message ⟨"aaaaaaaa".toList, 0, 0, 0⟩ "hi".toList none none none
        ⟨fun _ => none⟩).1.session_id
      ≠ (process_message ⟨"bbbbbbbb".toList, 0, 0, 0⟩ "hi".toList none none none
        ⟨fun _ => none⟩).1.session_id :=
  ⟨by decide,
   generated_session_ids_differ ⟨"aaaaaaaa".toList, 0, 0, 0⟩
     ⟨"bbbbbbbb".toList, 0, 0, 0⟩ "hi".toList "hi".toList none none none none
     ⟨fun _ => none⟩ ⟨fun _ => none⟩ (by decide)⟩

/-- C10: the user identifier has no effect — two calls agreeing on the
message, session id, portfolio, prior store and environment reads but
differing in user id return identical responses and identical stores. -/
theorem user_id_has_no_effect (env : Env) (message : PyStr)
    (osid : Option PyStr) (u1 u2 : Option PyStr) (p : Option Portfolio)
    (st : AgentState) :
    process_message env message osid u1 p st
      = process_message env message osid u2 p st := rfl

end FinancialAdvisor
